import Mathlib

/-!
# go-middleware: configuration defaults and the error-formatting wrapper

A shallow embedding of `middleware.go`.

* `time.Duration` and Go `int` values are integers (`Int`); the code compares them with zero
  and copies them, it does no arithmetic on them.
* The configuration source (viper) and the web framework (echo) are libraries outside the
  repository.  They appear as parameters: a `Viper` value for the key/value source, a
  `Context` value for the method `c.JSON` of `echo.Context`, and an `EchoMiddleware` value
  for the two library constructors the repository calls.
* A Go function that can panic returns `Except Panic _`.
-/

namespace GoMiddleware

/-! ## Constants -/

/-- One second as a `time.Duration` (nanoseconds). -/
def Second : Int := 1000000000

/-- One minute as a `time.Duration` (nanoseconds). -/
def Minute : Int := 60 * Second

/-- Source: `DefaultTimeout = 30 * time.Second`. -/
def DefaultTimeout : Int := 30 * Second

/-- Source: `DefaultBodyLimit = "2M"`. -/
def DefaultBodyLimit : String := "2M"

/-- Source: `DefaultRateLimitRequests = 100`. -/
def DefaultRateLimitRequests : Int := 100

/-- Source: `DefaultRateLimitDuration = 1 * time.Minute`. -/
def DefaultRateLimitDuration : Int := 1 * Minute

/-- Constant `http.StatusInternalServerError` of the Go standard library. -/
def StatusInternalServerError : Int := 500

/-! ## The configuration record -/

/-- The anonymous struct of the field `Timeout` of `MiddlewareConfig`. -/
structure TimeoutSection where
  Duration : Int
  deriving DecidableEq

/-- The anonymous struct of the field `BodyLimit` of `MiddlewareConfig`. -/
structure BodyLimitSection where
  Limit : String
  deriving DecidableEq

/-- The anonymous struct of the field `RateLimit` of `MiddlewareConfig`. -/
structure RateLimitSection where
  Requests : Int
  Duration : Int
  Store : String
  RedisAddr : String
  deriving DecidableEq

/-- Source: `type MiddlewareConfig struct`. -/
structure MiddlewareConfig where
  Timeout : TimeoutSection
  BodyLimit : BodyLimitSection
  RateLimit : RateLimitSection
  deriving DecidableEq

/-! ## The configuration source -/

/-- The configuration source as the code sees it.  `Get key` is the raw lookup, `none` when
the key is absent; the three casts turn a present raw value into the requested Go type.
Both the lookup and the casts belong to the viper library and are parameters here. -/
structure Viper (α : Type) where
  Get : String → Option α
  ToDuration : α → Int
  ToString : α → String
  ToInt : α → Int

/-- Library getter `viper.GetDuration`: the cast of the raw value, zero for an absent key. -/
def Viper.GetDuration {α : Type} (v : Viper α) (key : String) : Int :=
  match v.Get key with
  | none => 0
  | some x => v.ToDuration x

/-- Library getter `viper.GetString`: the cast of the raw value, empty for an absent key. -/
def Viper.GetString {α : Type} (v : Viper α) (key : String) : String :=
  match v.Get key with
  | none => ""
  | some x => v.ToString x

/-- Library getter `viper.GetInt`: the cast of the raw value, zero for an absent key. -/
def Viper.GetInt {α : Type} (v : Viper α) (key : String) : Int :=
  match v.Get key with
  | none => 0
  | some x => v.ToInt x

/-- Source: `func NewMiddlewareConfigFromViper() *MiddlewareConfig`.  The record is built
field by field: each field is read from the source and replaced by its default when the
value read is the zero value of its type. -/
def NewMiddlewareConfigFromViper {α : Type} (v : Viper α) : MiddlewareConfig :=
  let timeoutDuration := v.GetDuration "middleware.timeout"
  let timeoutDuration := if timeoutDuration = 0 then DefaultTimeout else timeoutDuration
  let bodyLimit := v.GetString "middleware.body_limit"
  let bodyLimit := if bodyLimit = "" then DefaultBodyLimit else bodyLimit
  let requests := v.GetInt "middleware.rate_limit.requests"
  let requests := if requests = 0 then DefaultRateLimitRequests else requests
  let rateDuration := v.GetDuration "middleware.rate_limit.duration"
  let rateDuration := if rateDuration = 0 then DefaultRateLimitDuration else rateDuration
  let store := v.GetString "middleware.rate_limit.store"
  let store := if store = "" then "memory" else store
  let redisAddr := v.GetString "middleware.rate_limit.redis_addr"
  let redisAddr := if redisAddr = "" then "localhost:6379" else redisAddr
  { Timeout := { Duration := timeoutDuration }
    BodyLimit := { Limit := bodyLimit }
    RateLimit :=
      { Requests := requests
        Duration := rateDuration
        Store := store
        RedisAddr := redisAddr } }

/-! ### Two concrete sources -/

/-- A raw configuration value of a sample source: a duration, a string or an integer. -/
inductive Setting where
  | duration (d : Int)
  | text (s : String)
  | number (n : Int)
  deriving DecidableEq

/-- A sample source backed by an association list.  A value asked for at another type than
the one it was stored with is cast to the zero value of the requested type. -/
def listSource (entries : List (String × Setting)) : Viper Setting where
  Get := fun key => entries.lookup key
  ToDuration := fun x => match x with
    | Setting.duration d => d
    | _ => 0
  ToString := fun x => match x with
    | Setting.text s => s
    | _ => ""
  ToInt := fun x => match x with
    | Setting.number n => n
    | _ => 0

/-- The source in which no key is set. -/
def emptySource : Viper Setting := listSource []

/-- A source that sets all six keys, two of them to negative numbers. -/
def fullSource : Viper Setting :=
  listSource
    [ ("middleware.timeout", Setting.duration (-5)),
      ("middleware.body_limit", Setting.text "10K"),
      ("middleware.rate_limit.requests", Setting.number (-7)),
      ("middleware.rate_limit.duration", Setting.duration 1500),
      ("middleware.rate_limit.store", Setting.text "redis"),
      ("middleware.rate_limit.redis_addr", Setting.text "cache:7000") ]

/-! ## The library constructors used by `TimeoutMiddleware` and `BodyLimitMiddleware` -/

/-- Library struct `middleware.TimeoutConfig`, restricted to the one field the composite
literal in `TimeoutMiddleware` sets; its other fields are left at their zero values. -/
structure TimeoutConfig where
  Timeout : Int
  deriving DecidableEq

/-- The two constructors of the echo middleware package that receive a configuration value,
as parameters; `μ` is the type of the middleware they build. -/
structure EchoMiddleware (μ : Type) where
  TimeoutWithConfig : TimeoutConfig → μ
  BodyLimit : String → μ

/-- Source: `func TimeoutMiddleware(config *MiddlewareConfig) echo.MiddlewareFunc`.
`none` is the nil pointer. -/
def TimeoutMiddleware {α μ : Type} (lib : EchoMiddleware μ) (v : Viper α)
    (config : Option MiddlewareConfig) : μ :=
  let config := match config with
    | none => NewMiddlewareConfigFromViper v
    | some c => c
  lib.TimeoutWithConfig { Timeout := config.Timeout.Duration }

/-- Source: `func BodyLimitMiddleware(config *MiddlewareConfig) echo.MiddlewareFunc`.
`none` is the nil pointer. -/
def BodyLimitMiddleware {α μ : Type} (lib : EchoMiddleware μ) (v : Viper α)
    (config : Option MiddlewareConfig) : μ :=
  let config := match config with
    | none => NewMiddlewareConfigFromViper v
    | some c => c
  lib.BodyLimit config.BodyLimit.Limit

/-- A library stand-in whose middleware is the value it was configured with: the timeout
for `TimeoutWithConfig`, the limit for `BodyLimit`. -/
def echoArguments : EchoMiddleware (TimeoutConfig ⊕ String) where
  TimeoutWithConfig := fun cfg => Sum.inl cfg
  BodyLimit := fun limit => Sum.inr limit

/-! ## Errors, JSON values and the request context -/

/-- A value of the field `Message interface{}` of `echo.HTTPError`, with what `fmt.Sprint`
prints for it. -/
inductive Message where
  /-- The nil interface. -/
  | nil
  /-- A Go string. -/
  | str (s : String)
  /-- A value of any other type, carried with its default rendering. -/
  | other (rendered : String)
  deriving DecidableEq

/-- Library function `fmt.Sprint` on one operand: a string prints as itself, nil as
`<nil>`, another value in its default format. -/
def Sprint : Message → String
  | Message.nil => "<nil>"
  | Message.str s => s
  | Message.other rendered => rendered

/-- Library struct `echo.HTTPError`, with the two fields the code reads. -/
structure HTTPError where
  Code : Int
  Message : Message
  deriving DecidableEq

/-- A non-nil value of the Go interface type `error`, by dynamic type. -/
inductive GoError where
  /-- Dynamic type `*echo.HTTPError`; `none` is the nil pointer of that type. -/
  | httpError (p : Option HTTPError)
  /-- Another dynamic type that wraps nothing, with its `Error()` text. -/
  | plain (text : String)
  /-- Another dynamic type whose `Unwrap` gives `inner`, with its `Error()` text. -/
  | wrap (text : String) (inner : GoError)
  deriving DecidableEq

/-- Whether the dynamic type of the error is `*echo.HTTPError`. -/
def GoError.isHTTPError : GoError → Bool
  | GoError.httpError _ => true
  | _ => false

/-- A run-time panic. -/
inductive Panic where
  /-- Invalid memory address or nil pointer dereference. -/
  | nilDereference
  /-- A panic raised by a callee, with its value. -/
  | raised (value : String)
  deriving DecidableEq

/-- A JSON value as handed to `c.JSON`. -/
inductive Json where
  | null
  | num (n : Int)
  | str (s : String)
  | obj (fields : List (String × Json))

/-- The fields of a JSON object; no fields for a value that is not an object. -/
def Json.fields : Json → List (String × Json)
  | Json.obj fs => fs
  | _ => []

/-- The result of running a handler from response state `σ`: a panic, or the returned
`error` (`none` is nil) with the response state it leaves. -/
abbrev Outcome (σ : Type) := Except Panic (Option GoError × σ)

/-- The part of `echo.Context` the code uses: the method `JSON(code, body)`, which acts on
the response state and returns an `error`. -/
structure Context (σ : Type) where
  JSON : Int → Json → σ → Outcome σ

/-- Library type `echo.HandlerFunc`: `func(c echo.Context) error`. -/
abbrev HandlerFunc (σ : Type) := Context σ → σ → Outcome σ

/-- Library type `echo.MiddlewareFunc`: `func(next echo.HandlerFunc) echo.HandlerFunc`. -/
abbrev MiddlewareFunc (σ : Type) := HandlerFunc σ → HandlerFunc σ

/-- The type switch of `ErrorHandlerMiddleware`: the status code and message chosen for a
non-nil error.  In the first case `e.Code` is read through the pointer `e`, which panics
when the pointer is nil. -/
def classifyError : GoError → Except Panic (Int × String)
  | GoError.httpError none => Except.error Panic.nilDereference
  | GoError.httpError (some e) => Except.ok (e.Code, Sprint e.Message)
  | _ => Except.ok (StatusInternalServerError, "Internal Server Error")

/-- The map literal `map[string]interface{}{"error": message}` of `ErrorHandlerMiddleware`. -/
def errorBody (message : String) : Json :=
  Json.obj [("error", Json.str message)]

/-- Source: `func ErrorHandlerMiddleware() echo.MiddlewareFunc`. -/
def ErrorHandlerMiddleware {σ : Type} : MiddlewareFunc σ :=
  fun next c s =>
    match next c s with
    | Except.error p => Except.error p
    | Except.ok (none, s') => Except.ok (none, s')
    | Except.ok (some err, s') =>
      match classifyError err with
      | Except.error p => Except.error p
      | Except.ok (statusCode, message) => c.JSON statusCode (errorBody message) s'

/-! ### Concrete contexts and handlers -/

/-- A context that appends every `(code, body)` it is asked to write to a log and reports
success. -/
def recordingContext : Context (List (Int × Json)) where
  JSON := fun code body log => Except.ok (none, log ++ [(code, body)])

/-- The error of the Go standard library `http.ErrBodyNotAllowed`. -/
def ErrBodyNotAllowed : GoError :=
  GoError.plain "http: request method or response status code does not allow body"

/-- A context whose writer refuses a body for the status codes that carry none (1xx, 204
and 304), as an `http.ResponseWriter` does: the write fails with `ErrBodyNotAllowed`. -/
def bodylessContext : Context (List (Int × Json)) where
  JSON := fun code body log =>
    if (100 ≤ code ∧ code ≤ 199) ∨ code = 204 ∨ code = 304 then
      Except.ok (some ErrBodyNotAllowed, log)
    else
      Except.ok (none, log ++ [(code, body)])

/-- A handler that writes nothing and returns the given `error` value. -/
def failWith {σ : Type} (err : GoError) : HandlerFunc σ :=
  fun _ s => Except.ok (some err, s)

/-- A handler that writes a 200 response with the given body through `c.JSON`. -/
def respondOK {σ : Type} (body : Json) : HandlerFunc σ :=
  fun c s => c.JSON 200 body s

/-! ## Helper lemmas -/

theorem GetDuration_of_absent {α : Type} (v : Viper α) (key : String)
    (h : v.Get key = none) : v.GetDuration key = 0 := by
  simp [Viper.GetDuration, h]

theorem GetString_of_absent {α : Type} (v : Viper α) (key : String)
    (h : v.Get key = none) : v.GetString key = "" := by
  simp [Viper.GetString, h]

theorem GetInt_of_absent {α : Type} (v : Viper α) (key : String)
    (h : v.Get key = none) : v.GetInt key = 0 := by
  simp [Viper.GetInt, h]

theorem GetDuration_of_present {α : Type} (v : Viper α) (key : String) (x : α)
    (h : v.Get key = some x) : v.GetDuration key = v.ToDuration x := by
  simp [Viper.GetDuration, h]

theorem GetString_of_present {α : Type} (v : Viper α) (key : String) (x : α)
    (h : v.Get key = some x) : v.GetString key = v.ToString x := by
  simp [Viper.GetString, h]

theorem GetInt_of_present {α : Type} (v : Viper α) (key : String) (x : α)
    (h : v.Get key = some x) : v.GetInt key = v.ToInt x := by
  simp [Viper.GetInt, h]

/-- The fields of the record, each as the conditional of the source. -/
theorem NewMiddlewareConfigFromViper_fields {α : Type} (v : Viper α) :
    (NewMiddlewareConfigFromViper v).Timeout.Duration
        = (if v.GetDuration "middleware.timeout" = 0 then DefaultTimeout
            else v.GetDuration "middleware.timeout") ∧
    (NewMiddlewareConfigFromViper v).BodyLimit.Limit
        = (if v.GetString "middleware.body_limit" = "" then DefaultBodyLimit
            else v.GetString "middleware.body_limit") ∧
    (NewMiddlewareConfigFromViper v).RateLimit.Requests
        = (if v.GetInt "middleware.rate_limit.requests" = 0 then DefaultRateLimitRequests
            else v.GetInt "middleware.rate_limit.requests") ∧
    (NewMiddlewareConfigFromViper v).RateLimit.Duration
        = (if v.GetDuration "middleware.rate_limit.duration" = 0 then DefaultRateLimitDuration
            else v.GetDuration "middleware.rate_limit.duration") ∧
    (NewMiddlewareConfigFromViper v).RateLimit.Store
        = (if v.GetString "middleware.rate_limit.store" = "" then "memory"
            else v.GetString "middleware.rate_limit.store") ∧
    (NewMiddlewareConfigFromViper v).RateLimit.RedisAddr
        = (if v.GetString "middleware.rate_limit.redis_addr" = "" then "localhost:6379"
            else v.GetString "middleware.rate_limit.redis_addr") :=
  ⟨rfl, rfl, rfl, rfl, rfl, rfl⟩

theorem DefaultTimeout_ne_zero : DefaultTimeout ≠ 0 := by decide

theorem DefaultRateLimitDuration_ne_zero : DefaultRateLimitDuration ≠ 0 := by decide

/-- The wrapper on a wrapped handler that returns an error the type switch classifies. -/
theorem ErrorHandlerMiddleware_of_classified {σ : Type} (c : Context σ) (next : HandlerFunc σ)
    (s s' : σ) (err : GoError) (code : Int) (message : String)
    (hnext : next c s = Except.ok (some err, s'))
    (hcls : classifyError err = Except.ok (code, message)) :
    ErrorHandlerMiddleware next c s = c.JSON code (errorBody message) s' := by
  simp only [ErrorHandlerMiddleware, hnext, hcls]

/-- The wrapper on a wrapped handler that returns nil. -/
theorem ErrorHandlerMiddleware_of_nil {σ : Type} (c : Context σ) (next : HandlerFunc σ)
    (s s' : σ) (hnext : next c s = Except.ok (none, s')) :
    ErrorHandlerMiddleware next c s = Except.ok (none, s') := by
  simp only [ErrorHandlerMiddleware, hnext]

/-- The type switch takes its default case on every error that is not a `*echo.HTTPError`. -/
theorem classifyError_of_not_http (err : GoError) (h : err.isHTTPError = false) :
    classifyError err = Except.ok (StatusInternalServerError, "Internal Server Error") := by
  cases err with
  | httpError p => simp [GoError.isHTTPError] at h
  | plain text => rfl
  | wrap text inner => rfl

/-! ## Configuration defaults -/

/-- C1: each of the six keys that is absent from the source, or that the source gives the
zero value of its type, resolves to its default: 30 s, "2M", 100, one minute, "memory" and
"localhost:6379". -/
theorem NewMiddlewareConfigFromViper_defaults {α : Type} (v : Viper α) :
    ((v.Get "middleware.timeout" = none ∨ v.GetDuration "middleware.timeout" = 0) →
      (NewMiddlewareConfigFromViper v).Timeout.Duration = 30 * Second) ∧
    ((v.Get "middleware.body_limit" = none ∨ v.GetString "middleware.body_limit" = "") →
      (NewMiddlewareConfigFromViper v).BodyLimit.Limit = "2M") ∧
    ((v.Get "middleware.rate_limit.requests" = none ∨
        v.GetInt "middleware.rate_limit.requests" = 0) →
      (NewMiddlewareConfigFromViper v).RateLimit.Requests = 100) ∧
    ((v.Get "middleware.rate_limit.duration" = none ∨
        v.GetDuration "middleware.rate_limit.duration" = 0) →
      (NewMiddlewareConfigFromViper v).RateLimit.Duration = 1 * Minute) ∧
    ((v.Get "middleware.rate_limit.store" = none ∨
        v.GetString "middleware.rate_limit.store" = "") →
      (NewMiddlewareConfigFromViper v).RateLimit.Store = "memory") ∧
    ((v.Get "middleware.rate_limit.redis_addr" = none ∨
        v.GetString "middleware.rate_limit.redis_addr" = "") →
      (NewMiddlewareConfigFromViper v).RateLimit.RedisAddr = "localhost:6379") := by
  obtain ⟨h1, h2, h3, h4, h5, h6⟩ := NewMiddlewareConfigFromViper_fields v
  refine ⟨fun h => ?_, fun h => ?_, fun h => ?_, fun h => ?_, fun h => ?_, fun h => ?_⟩
  · have hz : v.GetDuration "middleware.timeout" = 0 :=
      h.elim (GetDuration_of_absent v _) id
    rw [h1, if_pos hz]; rfl
  · have hz : v.GetString "middleware.body_limit" = "" :=
      h.elim (GetString_of_absent v _) id
    rw [h2, if_pos hz]; rfl
  · have hz : v.GetInt "middleware.rate_limit.requests" = 0 :=
      h.elim (GetInt_of_absent v _) id
    rw [h3, if_pos hz]; rfl
  · have hz : v.GetDuration "middleware.rate_limit.duration" = 0 :=
      h.elim (GetDuration_of_absent v _) id
    rw [h4, if_pos hz]; rfl
  · have hz : v.GetString "middleware.rate_limit.store" = "" :=
      h.elim (GetString_of_absent v _) id
    rw [h5, if_pos hz]
  · have hz : v.GetString "middleware.rate_limit.redis_addr" = "" :=
      h.elim (GetString_of_absent v _) id
    rw [h6, if_pos hz]

/-- Witness for C1: in the source where no key is set every key is absent, and the record
holds the six defaults. -/
theorem NewMiddlewareConfigFromViper_defaults_witness :
    (emptySource.Get "middleware.timeout" = none ∧
      emptySource.Get "middleware.body_limit" = none ∧
      emptySource.Get "middleware.rate_limit.requests" = none ∧
      emptySource.Get "middleware.rate_limit.duration" = none ∧
      emptySource.Get "middleware.rate_limit.store" = none ∧
      emptySource.Get "middleware.rate_limit.redis_addr" = none) ∧
    (NewMiddlewareConfigFromViper emptySource).Timeout.Duration = 30 * Second ∧
    (NewMiddlewareConfigFromViper emptySource).BodyLimit.Limit = "2M" ∧
    (NewMiddlewareConfigFromViper emptySource).RateLimit.Requests = 100 ∧
    (NewMiddlewareConfigFromViper emptySource).RateLimit.Duration = 1 * Minute ∧
    (NewMiddlewareConfigFromViper emptySource).RateLimit.Store = "memory" ∧
    (NewMiddlewareConfigFromViper emptySource).RateLimit.RedisAddr = "localhost:6379" :=
  ⟨⟨rfl, rfl, rfl, rfl, rfl, rfl⟩,
    (NewMiddlewareConfigFromViper_defaults emptySource).1 (Or.inl rfl),
    (NewMiddlewareConfigFromViper_defaults emptySource).2.1 (Or.inl rfl),
    (NewMiddlewareConfigFromViper_defaults emptySource).2.2.1 (Or.inl rfl),
    (NewMiddlewareConfigFromViper_defaults emptySource).2.2.2.1 (Or.inl rfl),
    (NewMiddlewareConfigFromViper_defaults emptySource).2.2.2.2.1 (Or.inl rfl),
    (NewMiddlewareConfigFromViper_defaults emptySource).2.2.2.2.2 (Or.inl rfl)⟩

/-- C2: a key that is present with a value whose cast is not the zero value of its type (a
non-zero duration or integer, negative ones included, or a non-empty string) is copied to
its field unchanged, whatever the other keys hold. -/
theorem NewMiddlewareConfigFromViper_passes_values {α : Type} (v : Viper α) :
    (∀ x, v.Get "middleware.timeout" = some x → v.ToDuration x ≠ 0 →
      (NewMiddlewareConfigFromViper v).Timeout.Duration = v.ToDuration x) ∧
    (∀ x, v.Get "middleware.body_limit" = some x → v.ToString x ≠ "" →
      (NewMiddlewareConfigFromViper v).BodyLimit.Limit = v.ToString x) ∧
    (∀ x, v.Get "middleware.rate_limit.requests" = some x → v.ToInt x ≠ 0 →
      (NewMiddlewareConfigFromViper v).RateLimit.Requests = v.ToInt x) ∧
    (∀ x, v.Get "middleware.rate_limit.duration" = some x → v.ToDuration x ≠ 0 →
      (NewMiddlewareConfigFromViper v).RateLimit.Duration = v.ToDuration x) ∧
    (∀ x, v.Get "middleware.rate_limit.store" = some x → v.ToString x ≠ "" →
      (NewMiddlewareConfigFromViper v).RateLimit.Store = v.ToString x) ∧
    (∀ x, v.Get "middleware.rate_limit.redis_addr" = some x → v.ToString x ≠ "" →
      (NewMiddlewareConfigFromViper v).RateLimit.RedisAddr = v.ToString x) := by
  obtain ⟨h1, h2, h3, h4, h5, h6⟩ := NewMiddlewareConfigFromViper_fields v
  refine ⟨fun x hx hne => ?_, fun x hx hne => ?_, fun x hx hne => ?_, fun x hx hne => ?_,
    fun x hx hne => ?_, fun x hx hne => ?_⟩
  · have hg := GetDuration_of_present v _ x hx
    rw [h1, hg, if_neg hne]
  · have hg := GetString_of_present v _ x hx
    rw [h2, hg, if_neg hne]
  · have hg := GetInt_of_present v _ x hx
    rw [h3, hg, if_neg hne]
  · have hg := GetDuration_of_present v _ x hx
    rw [h4, hg, if_neg hne]
  · have hg := GetString_of_present v _ x hx
    rw [h5, hg, if_neg hne]
  · have hg := GetString_of_present v _ x hx
    rw [h6, hg, if_neg hne]

/-- Witness for C2: the source that sets all six keys, the timeout to -5 ns and the request
count to -7; all six values reach the record. -/
theorem NewMiddlewareConfigFromViper_passes_values_witness :
    (NewMiddlewareConfigFromViper fullSource).Timeout.Duration = -5 ∧
    (NewMiddlewareConfigFromViper fullSource).BodyLimit.Limit = "10K" ∧
    (NewMiddlewareConfigFromViper fullSource).RateLimit.Requests = -7 ∧
    (NewMiddlewareConfigFromViper fullSource).RateLimit.Duration = 1500 ∧
    (NewMiddlewareConfigFromViper fullSource).RateLimit.Store = "redis" ∧
    (NewMiddlewareConfigFromViper fullSource).RateLimit.RedisAddr = "cache:7000" :=
  ⟨(NewMiddlewareConfigFromViper_passes_values fullSource).1
      (Setting.duration (-5)) (by decide) (by decide),
    (NewMiddlewareConfigFromViper_passes_values fullSource).2.1
      (Setting.text "10K") (by decide) (by decide),
    (NewMiddlewareConfigFromViper_passes_values fullSource).2.2.1
      (Setting.number (-7)) (by decide) (by decide),
    (NewMiddlewareConfigFromViper_passes_values fullSource).2.2.2.1
      (Setting.duration 1500) (by decide) (by decide),
    (NewMiddlewareConfigFromViper_passes_values fullSource).2.2.2.2.1
      (Setting.text "redis") (by decide) (by decide),
    (NewMiddlewareConfigFromViper_passes_values fullSource).2.2.2.2.2
      (Setting.text "cache:7000") (by decide) (by decide)⟩

/-- C9: no field of the record is the zero value of its type: the two durations and the
request count are not 0 and the three strings are not empty. -/
theorem NewMiddlewareConfigFromViper_no_zero_field {α : Type} (v : Viper α) :
    (NewMiddlewareConfigFromViper v).Timeout.Duration ≠ 0 ∧
    (NewMiddlewareConfigFromViper v).BodyLimit.Limit ≠ "" ∧
    (NewMiddlewareConfigFromViper v).RateLimit.Requests ≠ 0 ∧
    (NewMiddlewareConfigFromViper v).RateLimit.Duration ≠ 0 ∧
    (NewMiddlewareConfigFromViper v).RateLimit.Store ≠ "" ∧
    (NewMiddlewareConfigFromViper v).RateLimit.RedisAddr ≠ "" := by
  obtain ⟨h1, h2, h3, h4, h5, h6⟩ := NewMiddlewareConfigFromViper_fields v
  refine ⟨?_, ?_, ?_, ?_, ?_, ?_⟩
  · rw [h1]; split
    · exact DefaultTimeout_ne_zero
    · assumption
  · rw [h2]; split
    · decide
    · assumption
  · rw [h3]; split
    · decide
    · assumption
  · rw [h4]; split
    · exact DefaultRateLimitDuration_ne_zero
    · assumption
  · rw [h5]; split
    · decide
    · assumption
  · rw [h6]; split
    · decide
    · assumption

/-! ## The constructors that take a configuration record -/

/-- C8: `TimeoutMiddleware` and `BodyLimitMiddleware` hand the library exactly the field of
their effective record.  For a non-nil record that is `config.Timeout.Duration` and
`config.BodyLimit.Limit`, with no default put in their place; for nil it is the field of
`NewMiddlewareConfigFromViper()`, so the nil call equals the call on that record. -/
theorem TimeoutMiddleware_BodyLimitMiddleware_pass_field {α μ : Type}
    (lib : EchoMiddleware μ) (v : Viper α) :
    (∀ config : MiddlewareConfig,
      TimeoutMiddleware lib v (some config)
        = lib.TimeoutWithConfig { Timeout := config.Timeout.Duration }) ∧
    (∀ config : MiddlewareConfig,
      BodyLimitMiddleware lib v (some config) = lib.BodyLimit config.BodyLimit.Limit) ∧
    TimeoutMiddleware lib v none
      = lib.TimeoutWithConfig
          { Timeout := (NewMiddlewareConfigFromViper v).Timeout.Duration } ∧
    BodyLimitMiddleware lib v none
      = lib.BodyLimit (NewMiddlewareConfigFromViper v).BodyLimit.Limit ∧
    TimeoutMiddleware lib v none
      = TimeoutMiddleware lib v (some (NewMiddlewareConfigFromViper v)) ∧
    BodyLimitMiddleware lib v none
      = BodyLimitMiddleware lib v (some (NewMiddlewareConfigFromViper v)) :=
  ⟨fun _ => rfl, fun _ => rfl, rfl, rfl, rfl, rfl⟩

/-! ## The error-formatting wrapper -/

/-- C3, counterexample: the wrapped handler fails with `HTTPError{204, "no content"}` and
the writer refuses a body for status 204; after the wrapper the response holds no write at
all, so no response with status 204 and body `{"error": "no content"}` was written. -/
theorem ErrorHandlerMiddleware_http_error_not_written :
    Except.map Prod.snd
        (ErrorHandlerMiddleware
          (failWith (GoError.httpError (some ⟨204, Message.str "no content"⟩)))
          bodylessContext [])
      = Except.ok [] ∧
    ErrorHandlerMiddleware
        (failWith (GoError.httpError (some ⟨204, Message.str "no content"⟩)))
        bodylessContext []
      ≠ Except.ok (none, [(204, Json.obj [("error", Json.str "no content")])]) :=
  ⟨rfl, fun h => by
    have h1 := congrArg (Except.map Prod.snd) h
    have h2 : (Except.ok [] : Except Panic (List (Int × Json)))
        = Except.ok [(204, Json.obj [("error", Json.str "no content")])] := h1
    injection h2 with h3
    exact List.noConfusion h3⟩

/-- C3, amended: when the wrapped handler returns a non-nil `*echo.HTTPError` with code `c`
and message `m`, the wrapper calls `c.JSON` with status `c` and the one-field object whose
field "error" is `m` printed as text, on the response state the wrapped handler left, and
its result is the result of that call.  A string `m` is printed as itself, the nil
interface as `<nil>`, another value in its default rendering; for code 404 and message
"not found" the call is `JSON(404, {"error": "not found"})`.  When the call reports no
error, the wrapper returns nil with the response state the call produced. -/
theorem ErrorHandlerMiddleware_http_error {σ : Type} (c : Context σ) (next : HandlerFunc σ)
    (s s' : σ) (e : HTTPError)
    (hnext : next c s = Except.ok (some (GoError.httpError (some e)), s')) :
    ErrorHandlerMiddleware next c s
        = c.JSON e.Code (Json.obj [("error", Json.str (Sprint e.Message))]) s' ∧
    (∀ m : String, e.Message = Message.str m →
      ErrorHandlerMiddleware next c s
        = c.JSON e.Code (Json.obj [("error", Json.str m)]) s') ∧
    (e.Message = Message.nil →
      ErrorHandlerMiddleware next c s
        = c.JSON e.Code (Json.obj [("error", Json.str "<nil>")]) s') ∧
    (∀ rendered : String, e.Message = Message.other rendered →
      ErrorHandlerMiddleware next c s
        = c.JSON e.Code (Json.obj [("error", Json.str rendered)]) s') ∧
    (e.Code = 404 → e.Message = Message.str "not found" →
      ErrorHandlerMiddleware next c s
        = c.JSON 404 (Json.obj [("error", Json.str "not found")]) s') ∧
    (∀ (m : String) (t : σ), e.Message = Message.str m →
      c.JSON e.Code (Json.obj [("error", Json.str m)]) s' = Except.ok (none, t) →
      ErrorHandlerMiddleware next c s = Except.ok (none, t)) := by
  have h := ErrorHandlerMiddleware_of_classified c next s s' _ e.Code (Sprint e.Message)
    hnext rfl
  have hs : ∀ m : String, e.Message = Message.str m →
      ErrorHandlerMiddleware next c s
        = c.JSON e.Code (Json.obj [("error", Json.str m)]) s' := by
    intro m hm
    rw [h, hm]
    rfl
  refine ⟨h, hs, fun hm => ?_, fun r hm => ?_, fun hc hm => ?_, fun m t hm hw => ?_⟩
  · rw [h, hm]
    rfl
  · rw [h, hm]
    rfl
  · rw [hs "not found" hm, hc]
  · rw [hs m hm, hw]

/-- Witness for C3, amended: a handler failing with `HTTPError{404, "not found"}`, run on
the recording context, whose writes succeed, leaves exactly the write
`(404, {"error": "not found"})` and returns nil. -/
theorem ErrorHandlerMiddleware_http_error_witness :
    failWith (GoError.httpError (some ⟨404, Message.str "not found"⟩)) recordingContext []
        = Except.ok (some (GoError.httpError (some ⟨404, Message.str "not found"⟩)), []) ∧
    recordingContext.JSON 404 (Json.obj [("error", Json.str "not found")]) []
        = Except.ok (none, [(404, Json.obj [("error", Json.str "not found")])]) ∧
    ErrorHandlerMiddleware
        (failWith (GoError.httpError (some ⟨404, Message.str "not found"⟩)))
        recordingContext []
      = Except.ok (none, [(404, Json.obj [("error", Json.str "not found")])]) :=
  ⟨rfl, rfl,
    (ErrorHandlerMiddleware_http_error recordingContext
        (failWith (GoError.httpError (some ⟨404, Message.str "not found"⟩))) [] []
        ⟨404, Message.str "not found"⟩ rfl).2.2.2.2.2 "not found"
      [(404, Json.obj [("error", Json.str "not found")])] rfl rfl⟩

/-- C4: when the wrapped handler returns a non-nil error whose dynamic type is not
`*echo.HTTPError`, one that wraps an HTTP error included, the wrapper calls `c.JSON` with
status 500 and the object `{"error": "Internal Server Error"}`, whatever the text of the
error, and its result is the result of that call. -/
theorem ErrorHandlerMiddleware_other_error {σ : Type} (c : Context σ) (next : HandlerFunc σ)
    (s s' : σ) (err : GoError)
    (hnext : next c s = Except.ok (some err, s'))
    (hother : err.isHTTPError = false) :
    ErrorHandlerMiddleware next c s
      = c.JSON 500 (Json.obj [("error", Json.str "Internal Server Error")]) s' :=
  ErrorHandlerMiddleware_of_classified c next s s' err _ _ hnext
    (classifyError_of_not_http err hother)

/-- Witness for C4: an error that wraps `HTTPError{404, "not found"}` is answered with 500
and the fixed message. -/
theorem ErrorHandlerMiddleware_other_error_witness :
    (GoError.wrap "lookup: not found"
        (GoError.httpError (some ⟨404, Message.str "not found"⟩))).isHTTPError = false ∧
    ErrorHandlerMiddleware
        (failWith (GoError.wrap "lookup: not found"
          (GoError.httpError (some ⟨404, Message.str "not found"⟩))))
        recordingContext []
      = Except.ok (none, [(500, Json.obj [("error", Json.str "Internal Server Error")])]) :=
  ⟨rfl,
    (ErrorHandlerMiddleware_other_error recordingContext
        (failWith (GoError.wrap "lookup: not found"
          (GoError.httpError (some ⟨404, Message.str "not found"⟩)))) [] []
        _ rfl rfl).trans rfl⟩

/-- C5: when the wrapped handler returns nil, the wrapper returns nil and the response
state is the one the wrapped handler left. -/
theorem ErrorHandlerMiddleware_no_error {σ : Type} (c : Context σ) (next : HandlerFunc σ)
    (s s' : σ) (hnext : next c s = Except.ok (none, s')) :
    ErrorHandlerMiddleware next c s = Except.ok (none, s') :=
  ErrorHandlerMiddleware_of_nil c next s s' hnext

/-- Witness for C5: a handler that answers 200 with a body of its own; after the wrapper
the log holds that one write and nothing else. -/
theorem ErrorHandlerMiddleware_no_error_witness :
    respondOK (Json.str "pong") recordingContext []
        = Except.ok (none, [(200, Json.str "pong")]) ∧
    ErrorHandlerMiddleware (respondOK (Json.str "pong")) recordingContext []
      = Except.ok (none, [(200, Json.str "pong")]) :=
  ⟨rfl,
    ErrorHandlerMiddleware_no_error recordingContext (respondOK (Json.str "pong")) []
      [(200, Json.str "pong")] rfl⟩

/-- C6, counterexample: the wrapped handler fails with `HTTPError{304, "not modified"}` and
the writer refuses a body for status 304; the wrapper returns the error of the write, not
nil. -/
theorem ErrorHandlerMiddleware_returns_error_of_write :
    ErrorHandlerMiddleware
        (failWith (GoError.httpError (some ⟨304, Message.str "not modified"⟩)))
        bodylessContext []
      = Except.ok (some ErrBodyNotAllowed, []) :=
  rfl

/-- C6, amended: the wrapper returns nil when the wrapped handler returns nil; when the
wrapped handler returns a non-nil error that the type switch classifies, the wrapper returns
what `c.JSON` returns for the status and body it writes, which is nil when that write
reports no error. -/
theorem ErrorHandlerMiddleware_returns_result_of_write {σ : Type} (c : Context σ)
    (next : HandlerFunc σ) (s : σ) :
    (∀ s', next c s = Except.ok (none, s') →
      Except.map Prod.fst (ErrorHandlerMiddleware next c s) = Except.ok none) ∧
    (∀ err s' code message, next c s = Except.ok (some err, s') →
      classifyError err = Except.ok (code, message) →
      Except.map Prod.fst (ErrorHandlerMiddleware next c s)
          = Except.map Prod.fst (c.JSON code (errorBody message) s') ∧
      ∀ t, c.JSON code (errorBody message) s' = Except.ok (none, t) →
        ErrorHandlerMiddleware next c s = Except.ok (none, t)) := by
  refine ⟨fun s' hnext => ?_, fun err s' code message hnext hcls => ?_⟩
  · rw [ErrorHandlerMiddleware_of_nil c next s s' hnext]
    rfl
  · have h := ErrorHandlerMiddleware_of_classified c next s s' err code message hnext hcls
    refine ⟨by rw [h], fun t hw => ?_⟩
    rw [h, hw]

/-- Witness for C6, amended: on the recording context, whose writes succeed, the wrapper
around a handler failing with a plain error returns nil. -/
theorem ErrorHandlerMiddleware_returns_result_of_write_witness :
    failWith (GoError.plain "boom") recordingContext []
        = Except.ok (some (GoError.plain "boom"), []) ∧
    classifyError (GoError.plain "boom") = Except.ok (500, "Internal Server Error") ∧
    ErrorHandlerMiddleware (failWith (GoError.plain "boom")) recordingContext []
      = Except.ok (none, [(500, errorBody "Internal Server Error")]) :=
  ⟨rfl, rfl,
    ((ErrorHandlerMiddleware_returns_result_of_write recordingContext
        (failWith (GoError.plain "boom")) []).2
      (GoError.plain "boom") [] 500 "Internal Server Error" rfl rfl).2
      [(500, errorBody "Internal Server Error")] rfl⟩

/-- C7, counterexample: for a plain error the object the wrapper writes is
`{"error": "Internal Server Error"}`, which has one field, not two. -/
theorem ErrorHandlerMiddleware_writes_one_field :
    ErrorHandlerMiddleware (failWith (GoError.plain "disk full")) recordingContext []
      = Except.ok (none, [(500, Json.obj [("error", Json.str "Internal Server Error")])]) ∧
    (Json.obj [("error", Json.str "Internal Server Error")]).fields.length = 1 ∧
    (Json.obj [("error", Json.str "Internal Server Error")]).fields.length ≠ 2 :=
  ⟨rfl, rfl, by decide⟩

/-- C7, amended: for every non-nil error of the wrapped handler that the type switch
classifies, the JSON value the wrapper hands to `c.JSON` is an object with exactly one
field, named "error", whose value is the message as a string. -/
theorem ErrorHandlerMiddleware_body_single_field {σ : Type} (c : Context σ)
    (next : HandlerFunc σ) (s s' : σ) (err : GoError) (code : Int) (message : String)
    (hnext : next c s = Except.ok (some err, s'))
    (hcls : classifyError err = Except.ok (code, message)) :
    ErrorHandlerMiddleware next c s = c.JSON code (errorBody message) s' ∧
    (errorBody message).fields = [("error", Json.str message)] ∧
    (errorBody message).fields.length = 1 :=
  ⟨ErrorHandlerMiddleware_of_classified c next s s' err code message hnext hcls, rfl, rfl⟩

/-- Witness for C7, amended: the body written for `HTTPError{418, "teapot"}`. -/
theorem ErrorHandlerMiddleware_body_single_field_witness :
    failWith (GoError.httpError (some ⟨418, Message.str "teapot"⟩)) recordingContext []
        = Except.ok (some (GoError.httpError (some ⟨418, Message.str "teapot"⟩)), []) ∧
    classifyError (GoError.httpError (some ⟨418, Message.str "teapot"⟩))
        = Except.ok (418, "teapot") ∧
    ErrorHandlerMiddleware (failWith (GoError.httpError (some ⟨418, Message.str "teapot"⟩)))
        recordingContext []
      = Except.ok (none, [(418, Json.obj [("error", Json.str "teapot")])]) ∧
    (errorBody "teapot").fields.length = 1 :=
  ⟨rfl, rfl,
    (ErrorHandlerMiddleware_body_single_field recordingContext
        (failWith (GoError.httpError (some ⟨418, Message.str "teapot"⟩))) [] [] _ 418
        "teapot" rfl rfl).1.trans rfl,
    rfl⟩

/-- C10, counterexample: the wrapped handler returns an `error` whose dynamic type is
`*echo.HTTPError` and whose pointer is nil; the value is not the nil interface, the type
switch takes its first case and reading `e.Code` panics. -/
theorem ErrorHandlerMiddleware_nil_pointer_panics :
    classifyError (GoError.httpError none) = Except.error Panic.nilDereference ∧
    ErrorHandlerMiddleware (failWith (GoError.httpError none)) recordingContext []
      = Except.error Panic.nilDereference :=
  ⟨rfl, rfl⟩

/-- C10, amended: on every non-nil error other than a nil `*echo.HTTPError` pointer the type
switch yields a status code and a message without failing, and the wrapper goes on to call
`c.JSON` with them. -/
theorem classifyError_total_of_not_nil_pointer (err : GoError)
    (hptr : err ≠ GoError.httpError none) :
    ∃ code message, classifyError err = Except.ok (code, message) ∧
      ∀ (σ : Type) (c : Context σ) (next : HandlerFunc σ) (s s' : σ),
        next c s = Except.ok (some err, s') →
        ErrorHandlerMiddleware next c s = c.JSON code (errorBody message) s' := by
  have hcls : ∃ code message, classifyError err = Except.ok (code, message) := by
    cases err with
    | httpError p =>
      cases p with
      | none => exact absurd rfl hptr
      | some e => exact ⟨e.Code, Sprint e.Message, rfl⟩
    | plain text => exact ⟨StatusInternalServerError, "Internal Server Error", rfl⟩
    | wrap text inner => exact ⟨StatusInternalServerError, "Internal Server Error", rfl⟩
  obtain ⟨code, message, h⟩ := hcls
  exact ⟨code, message, h, fun σ c next s s' hnext =>
    ErrorHandlerMiddleware_of_classified c next s s' err code message hnext h⟩

/-- Witness for C10, amended: an HTTP error whose message is the nil interface is
classified, with the text `<nil>`. -/
theorem classifyError_total_of_not_nil_pointer_witness :
    GoError.httpError (some ⟨503, Message.nil⟩) ≠ GoError.httpError none ∧
    classifyError (GoError.httpError (some ⟨503, Message.nil⟩)) = Except.ok (503, "<nil>") ∧
    ∃ code message,
      classifyError (GoError.httpError (some ⟨503, Message.nil⟩))
          = Except.ok (code, message) ∧
      ∀ (σ : Type) (c : Context σ) (next : HandlerFunc σ) (s s' : σ),
        next c s = Except.ok (some (GoError.httpError (some ⟨503, Message.nil⟩)), s') →
        ErrorHandlerMiddleware next c s = c.JSON code (errorBody message) s' :=
  ⟨by decide, rfl,
    classifyError_total_of_not_nil_pointer (GoError.httpError (some ⟨503, Message.nil⟩))
      (by decide)⟩

end GoMiddleware
